import Mathlib

/-!
Shallow embedding of the gallery backend (ArtGalleryVake/mongoback).

The repository holds three service variants:
  * `src/server.js` — two near-identical MongoDB + local-disk variants
    (referred to below as V1, lines 1-504, and V2, lines 504-1137);
  * `src/unnamed/part_000` — a Cloudinary-backed variant;
  * `src/unnamed/part_001` — a filesystem-with-sidecar-JSON variant.

Request-body text fields are modelled as `Option String` (`none` = the key
is absent from `req.body`, i.e. JS `undefined`).  Timestamps are `Nat`.
The blob store (local `uploads/` directory or Cloudinary) is modelled as a
list of existing paths/assets; the metadata store (MongoDB collection) as
an association list from ids to records.
-/

/-- JS truthiness of an optional string (`undefined` and `""` are falsy). -/
def jsTruthy : Option String → Bool
  | none => false
  | some s => !(s = "")

/-- JS `x || d` for an optional string field (used as `section || "others"`). -/
def orDefault : Option String → String → String
  | none, d => d
  | some s, d => if s = "" then d else s

/-- JS `String.prototype.trim()`: strip leading and trailing whitespace.
Written over the character list so that it evaluates by kernel reduction. -/
def jsTrim (s : String) : String :=
  String.mk (((s.toList.dropWhile Char.isWhitespace).reverse.dropWhile Char.isWhitespace).reverse)

/-- JS `x ? x.trim() : ""` (upload field handling, server.js lines 189-192). -/
def trimOrEmpty : Option String → String
  | none => ""
  | some s => if s = "" then "" else jsTrim s

/-- JS `x?.trim() || ""` (Cloudinary upload field handling, part_000 lines 129-132). -/
def trimElseEmpty : Option String → String
  | none => ""
  | some s => if jsTrim s = "" then "" else jsTrim s

/-- `String.startsWith`, written over character lists so it kernel-reduces. -/
def startsWithStr (p s : String) : Bool :=
  p.toList.isPrefixOf s.toList

/-- The stored metadata record (Mongoose schema, server.js lines 42-53).
`sect` embeds the JS field `section` (a Lean keyword). -/
structure GalleryItem where
  sect : String
  filePath : String
  filename : String
  originalName : String
  title : String
  description : String
  materials : String
  paintingSize : String
  uploadDate : Nat
deriving DecidableEq

/-- The text fields of a multipart request body (`req.body`). -/
structure UploadFields where
  sect : Option String
  title : Option String
  description : Option String
  materials : Option String
  paintingSize : Option String
deriving DecidableEq

/-- The file part of a multipart request after multer processing (`req.file`). -/
structure FileInfo where
  path : String
  filename : String
  originalname : String
deriving DecidableEq

/-- Construction of the new gallery item at POST /upload
(server.js lines 184-193; identical in V2, lines 781-790). -/
def mkGalleryItem (body : UploadFields) (file : FileInfo) (now : Nat) : GalleryItem :=
  { sect := orDefault body.sect "others"
    filePath := file.path
    filename := file.filename
    originalName := file.originalname
    title := trimOrEmpty body.title
    description := trimOrEmpty body.description
    materials := trimOrEmpty body.materials
    paintingSize := trimOrEmpty body.paintingSize
    uploadDate := now }

/-- multer's size limit (server.js line 124): 10 * 1024 * 1024 bytes. -/
def maxFileSize : Nat := 10 * 1024 * 1024

/-- How multer rejects an upload: the fileFilter rejects non-images with a
plain `Error` (server.js lines 126-137), while an oversize payload raises a
`MulterError` with code `LIMIT_FILE_SIZE`. -/
inductive MulterReject where
  | notImage
  | limitFileSize
deriving DecidableEq

/-- The multer gate run before the route handler: the fileFilter fires first
(on the file's headers), the size limit during streaming. `none` = accepted. -/
def multerCheck (mimetype : String) (size : Nat) : Option MulterReject :=
  if !startsWithStr "image/" mimetype then some .notImage
  else if size > maxFileSize then some .limitFileSize
  else none

/-- HTTP status chosen by the global error handler (server.js lines 447-481;
identical in V2, lines 1062-1104): a `MulterError` with code `LIMIT_FILE_SIZE`
gets 400; the fileFilter's plain `Error('Only image files are allowed!')` is
not a `MulterError` and carries no `http_code`/`status`, so it falls through
to `error.http_code || error.status || 500`, i.e. 500. -/
def globalErrorStatus : MulterReject → Nat
  | .limitFileSize => 400
  | .notImage => 500

/-- Observable outcome of one POST /upload request: the HTTP status, whether
an uploaded file remains on disk afterwards, and the record persisted (if any). -/
structure UploadResult where
  status : Nat
  blobExists : Bool
  metaSaved : Option GalleryItem
deriving DecidableEq

/-- POST /upload on the MongoDB variants (server.js lines 156-227 / 753-829).
If multer rejects, the handler never runs and no file was kept.  Otherwise the
file is on disk; if the `save()` fails (`dbFails`), the catch block issues a
best-effort `fs.unlink` of the uploaded file (which itself may fail,
`unlinkFails`, in which case the failure is only logged) and responds 500 with
the database error as the primary error; on success it responds 201. -/
def uploadMongo (mimetype : String) (size : Nat) (body : UploadFields) (file : FileInfo)
    (now : Nat) (dbFails : Bool) (unlinkFails : Bool) : UploadResult :=
  match multerCheck mimetype size with
  | some e => { status := globalErrorStatus e, blobExists := false, metaSaved := none }
  | none =>
    if dbFails then
      { status := 500, blobExists := unlinkFails, metaSaved := none }
    else
      { status := 201, blobExists := true, metaSaved := some (mkGalleryItem body file now) }

/-- The Cloudinary `context` attached to an uploaded asset
(part_000 lines 141-153). `materials`/`paintingSize` are `Option` because the
code adds those keys to the context object only for the paintings section. -/
structure ContextData where
  title : String
  description : String
  originalName : String
  sect : String
  materials : Option String
  paintingSize : Option String
deriving DecidableEq

/-- Context construction at POST /upload in the Cloudinary variant
(part_000 lines 128-153). -/
def contextDataFor (body : UploadFields) (originalname : String) : ContextData :=
  let sect := orDefault body.sect "others"
  let base : ContextData :=
    { title := trimElseEmpty body.title
      description := trimElseEmpty body.description
      originalName := originalname
      sect := sect
      materials := none
      paintingSize := none }
  if sect = "paintings" then
    { base with
      materials := some (trimElseEmpty body.materials)
      paintingSize := some (trimElseEmpty body.paintingSize) }
  else base

/-- A partial update document passed to `findByIdAndUpdate`: only the keys
present (`some`) are written; the remaining keys keep their stored value. -/
structure UpdateData where
  sect : Option String
  title : Option String
  description : Option String
  materials : Option String
  paintingSize : Option String
  filePath : Option String
  filename : Option String
  originalName : Option String
deriving DecidableEq

/-- JS `x || undefined` (V1 update, `section: section || undefined`). -/
def presentIfTruthy : Option String → Option String
  | none => none
  | some s => if s = "" then none else some s

/-- JS `x ? x.trim() : undefined` (V1 update, server.js lines 367-370). -/
def trimmedIfTruthy : Option String → Option String
  | none => none
  | some s => if s = "" then none else some (jsTrim s)

/-- JS `...(x !== undefined && { x: x.trim() })` (V2 update, lines 982-986). -/
def trimmedIfPresent : Option String → Option String
  | none => none
  | some s => some (jsTrim s)

/-- The `updateData` object built by PUT /update/:id in V1 (server.js lines
364-374): fields become `undefined` when falsy and are then deleted, so an
empty-string field is dropped just like an absent one. -/
def updateDataV1 (body : UploadFields) : UpdateData :=
  { sect := presentIfTruthy body.sect
    title := trimmedIfTruthy body.title
    description := trimmedIfTruthy body.description
    materials := trimmedIfTruthy body.materials
    paintingSize := trimmedIfTruthy body.paintingSize
    filePath := none
    filename := none
    originalName := none }

/-- The `updateData` object built by PUT /update/:id in V2 (server.js lines
980-987): a key is included iff it is present in the body (`!== undefined`),
so an empty string is included and overwrites. -/
def updateDataV2 (body : UploadFields) : UpdateData :=
  { sect := trimmedIfPresent body.sect
    title := trimmedIfPresent body.title
    description := trimmedIfPresent body.description
    materials := trimmedIfPresent body.materials
    paintingSize := trimmedIfPresent body.paintingSize
    filePath := none
    filename := none
    originalName := none }

/-- `findByIdAndUpdate(id, updateData)` applied to one record: set exactly
the present keys, keep the rest. -/
def applyUpdate (u : UpdateData) (it : GalleryItem) : GalleryItem :=
  { it with
    sect := u.sect.getD it.sect
    title := u.title.getD it.title
    description := u.description.getD it.description
    materials := u.materials.getD it.materials
    paintingSize := u.paintingSize.getD it.paintingSize
    filePath := u.filePath.getD it.filePath
    filename := u.filename.getD it.filename
    originalName := u.originalName.getD it.originalName }

/-- The MongoDB collection, modelled as an association list id ↦ record. -/
abbrev Db : Type := List (Nat × GalleryItem)

/-- `GalleryItem.findById(id)`. -/
def findById (db : Db) (id : Nat) : Option GalleryItem :=
  (List.find? (fun e => e.1 == id) db).map (·.2)

/-- `GalleryItem.findByIdAndDelete(id)`. -/
def dbDelete (db : Db) (id : Nat) : Db :=
  List.filter (fun e => e.1 != id) db

/-- Outcome of one DELETE /delete/:id request: HTTP status, response message,
and the resulting metadata store and blob store. -/
structure DeleteOutcome where
  status : Nat
  msg : String
  db : Db
  blobs : List String
deriving DecidableEq

/-- DELETE /delete/:id in V1 (server.js lines 310-352): find the item, delete
the MongoDB record first, then `fs.unlink` the file.  When the unlink fails
(`unlinkFails`) the callback responds **500** with a message reporting that the
DB record is gone but the file is not. -/
def deleteV1 (db : Db) (blobs : List String) (id : Nat) (unlinkFails : Bool) : DeleteOutcome :=
  match findById db id with
  | none => { status := 404, msg := "Item not found.", db := db, blobs := blobs }
  | some item =>
    let db2 := dbDelete db id
    if unlinkFails then
      { status := 500, msg := "Item deleted from DB, but failed to delete local file."
        db := db2, blobs := blobs }
    else
      { status := 200, msg := "File and its data deleted successfully."
        db := db2, blobs := blobs.erase item.filePath }

/-- DELETE /delete/:id in V2 (server.js lines 920-967): same ordering, but a
failed unlink responds **200** with a warning message. -/
def deleteV2 (db : Db) (blobs : List String) (id : Nat) (unlinkFails : Bool) : DeleteOutcome :=
  match findById db id with
  | none => { status := 404, msg := "Item not found.", db := db, blobs := blobs }
  | some item =>
    let db2 := dbDelete db id
    if unlinkFails then
      { status := 200, msg := "Item deleted from database. However, file deletion failed."
        db := db2, blobs := blobs }
    else
      { status := 200, msg := "File and its data deleted successfully.", db := db2
        blobs := blobs.erase item.filePath }

/-- The file-system / store events issued by a PUT /update/:id request that
carries a replacement file, in program order. -/
inductive UpdEvent where
  | newBlobStored (p : String)
  | oldBlobUnlinked (p : String)
  | metaUpdated (id : Nat)
  | newBlobUnlinked (p : String)
deriving DecidableEq

/-- Outcome of one PUT /update/:id request with a replacement file: HTTP
status, the issued events in order, and the resulting stores. -/
structure UpdateRun where
  status : Nat
  events : List UpdEvent
  db : Db
  blobs : List String
deriving DecidableEq

/-- PUT /update/:id with a replacement file, V1 (server.js lines 355-441;
V2 lines 970-1059 issues the same event sequence).  multer stores the new
file before the handler body runs.  The handler then looks the item up,
issues `fs.unlink` on the **old** file (lines 387-389), and only afterwards
awaits `findByIdAndUpdate` (line 402).  If the metadata write throws, the
catch block (lines 434-438) unlinks the **new** file as well. -/
def updateWithFileV1 (db : Db) (blobs : List String) (id : Nat)
    (body : UploadFields) (file : FileInfo) (metaFails : Bool) : UpdateRun :=
  let blobs1 := file.path :: blobs
  match findById db id with
  | none =>
    { status := 404
      events := [.newBlobStored file.path, .newBlobUnlinked file.path]
      db := db, blobs := blobs1.erase file.path }
  | some item =>
    let blobs2 := blobs1.erase item.filePath
    if metaFails then
      { status := 500
        events := [.newBlobStored file.path, .oldBlobUnlinked item.filePath,
                   .newBlobUnlinked file.path]
        db := db, blobs := blobs2.erase file.path }
    else
      let u := { updateDataV1 body with
                 filePath := some file.path
                 filename := some file.filename
                 originalName := some file.originalname }
      { status := 200
        events := [.newBlobStored file.path, .oldBlobUnlinked item.filePath,
                   .metaUpdated id]
        db := List.map (fun e => if e.1 == id then (e.1, applyUpdate u e.2) else e) db
        blobs := blobs2 }

/-- The six section names hard-coded in the Cloudinary stats route
(part_000 line 333). -/
def knownSections : List String :=
  ["paintings", "drawings", "illustrations", "authors", "exhibitions", "others"]

/-- A Cloudinary asset, as far as the stats/search routes observe it. -/
structure CloudAsset where
  folder : String
  publicId : String
deriving DecidableEq

/-- GET /stats in the Cloudinary variant (part_000 lines 328-356): one search
per known section, `stats[section] = result.resources.length` — every known
section gets an entry, zero count included. -/
def statsCloudinary (store : List CloudAsset) : List (String × Nat) :=
  List.map (fun s => (s, (List.filter (fun a => a.folder == s) store).length)) knownSections

/-- GET /stats in the MongoDB V2 variant (server.js lines 700-736): an
aggregate `$group` by `$section` — one group per section value that occurs in
the collection, with its document count. -/
def statsMongo (db : Db) : List (String × Nat) :=
  List.map (fun s => (s, (List.filter (fun e => e.2.sect == s) db).length))
    (List.dedup (List.map (fun e => e.2.sect) db))

/-- `.sort({uploadDate: -1})`: newest first. -/
def rDateDesc : GalleryItem → GalleryItem → Prop := fun a b => b.uploadDate ≤ a.uploadDate

instance : DecidableRel rDateDesc := fun a b => Nat.decLe b.uploadDate a.uploadDate

instance : IsTotal GalleryItem rDateDesc := ⟨fun a b => Nat.le_total b.uploadDate a.uploadDate⟩

instance : IsTrans GalleryItem rDateDesc := ⟨fun _ _ _ hab hbc => Nat.le_trans hbc hab⟩

/-- GET /files/:section in the MongoDB variants (server.js lines 230-269 /
832-875): `GalleryItem.find({ section }).sort({ uploadDate: -1 })`. -/
def listBySection (db : Db) (s : String) : List GalleryItem :=
  List.insertionSort rDateDesc (List.filter (fun it => it.sect == s) (List.map (·.2) db))

/-- A directory entry as the filesystem variant observes it: name, whether
`stat` says it is a regular file, and its creation time. -/
structure FsEntry where
  name : String
  isFile : Bool
  creationTime : Nat
deriving DecidableEq

/-- The image-extension allow-list (part_001 line 294). -/
def imageExts : List String := [".jpg", ".jpeg", ".png", ".gif", ".bmp", ".webp"]

/-- Node's `path.extname`: the suffix from the last dot, or `""` when the
name has no dot. -/
def extnameOf (name : String) : String :=
  let cs := name.toList
  if cs.contains '.' then
    String.mk ('.' :: (List.takeWhile (fun c => c ≠ '.') cs.reverse).reverse)
  else ""

/-- Sort key of the filesystem listing: creation time, newest first
(part_001 line 308). -/
def rTimeDesc : FsEntry → FsEntry → Prop := fun a b => b.creationTime ≤ a.creationTime

instance : DecidableRel rTimeDesc := fun a b => Nat.decLe b.creationTime a.creationTime

instance : IsTotal FsEntry rTimeDesc := ⟨fun a b => Nat.le_total b.creationTime a.creationTime⟩

instance : IsTrans FsEntry rTimeDesc := ⟨fun _ _ _ hab hbc => Nat.le_trans hbc hab⟩

/-- GET /files/:section in the filesystem variant (part_001 lines 270-319):
return `{files: []}` when the section directory does not exist; otherwise list
the regular files with an image extension, sorted by creation time descending.
The directory tree is modelled as an association list section ↦ entries. -/
def fsListBySection (dirs : List (String × List FsEntry)) (s : String) : List FsEntry :=
  match List.find? (fun d => d.1 == s) dirs with
  | none => []
  | some d =>
    List.insertionSort rTimeDesc
      (List.filter (fun e => e.isFile && List.contains imageExts (extnameOf e.name).toLower) d.2)

/-- Node's `path.parse(p).name` restricted to a bare filename: the name with
its last extension removed (used by `getMetadataPath`, part_001 lines 69-72,
and as the filename stem of the spec's Slug Deriver). -/
def pathStemOf (name : String) : String :=
  let cs := name.toList
  if cs.contains '.' then
    String.mk (List.reverse (List.drop 1 (List.dropWhile (fun c => c ≠ '.') cs.reverse)))
  else name

/-- The image path the filesystem delete route targets (part_001 line 332). -/
def fsFilePath (sect filename : String) : String :=
  "uploads/" ++ sect ++ "/" ++ filename

/-- `getMetadataPath` (part_001 lines 69-72): same directory, stem + `.json`. -/
def getMetadataPath (sect filename : String) : String :=
  "uploads/" ++ sect ++ "/" ++ pathStemOf filename ++ ".json"

/-- Outcome of one DELETE /delete request in the filesystem variant. -/
structure FsDeleteOutcome where
  status : Nat
  files : List String
deriving DecidableEq

/-- DELETE /delete in the filesystem variant (part_001 lines 322-368): 400
when `filename` or `section` is missing/empty; otherwise unlink the image file
and the sidecar JSON when each exists, counting deletions; 200 when
`deletedCount > 0`, else 404. -/
def deleteFsHandler (files : List String) (filename sect : Option String) : FsDeleteOutcome :=
  match filename, sect with
  | some fn, some sc =>
    if fn = "" ∨ sc = "" then { status := 400, files := files }
    else
      let fp := fsFilePath sc fn
      let mp := getMetadataPath sc fn
      let d1 : Nat := if fp ∈ files then 1 else 0
      let files1 := if fp ∈ files then files.erase fp else files
      let d2 : Nat := if mp ∈ files1 then 1 else 0
      let files2 := if mp ∈ files1 then files1.erase mp else files1
      if 0 < d1 + d2 then { status := 200, files := files2 }
      else { status := 404, files := files2 }
  | _, _ => { status := 400, files := files }

/-- Modelled from the spec: the Slug Deriver of §4.3 has no implementation
under src (only the spec describes it).  The fixed allow-list of the
normalization: lowercase ASCII letters and digits. -/
def slugAllowed (c : Char) : Bool :=
  (('a' ≤ c) && (c ≤ 'z')) || (('0' ≤ c) && (c ≤ '9'))

/-- Modelled from the spec: split a character list on blanks, dropping empty
runs (the "collapse whitespace/punctuation runs" step of §4.3). -/
def slugWords : List Char → List Char → List (List Char)
  | [], acc => if acc.isEmpty then [] else [acc.reverse]
  | c :: cs, acc =>
    if c = ' ' then
      if acc.isEmpty then slugWords cs [] else acc.reverse :: slugWords cs []
    else slugWords cs (c :: acc)

/-- Modelled from the spec: join word runs with single hyphens (which also
trims leading/trailing hyphens, §4.3). -/
def slugJoin : List (List Char) → List Char
  | [] => []
  | [w] => w
  | w :: ws => w ++ '-' :: slugJoin ws

/-- Modelled from the spec (§4.3): normalize a title — lowercase, keep only
allow-listed characters, collapse the rest to single hyphens, trim hyphens. -/
def slugNormalize (s : String) : String :=
  String.mk (slugJoin (slugWords
    (List.map (fun c => let d := c.toLower; if slugAllowed d then d else ' ') s.toList) []))

/-- Modelled from the spec (§4.3): the Slug Deriver.  Paintings slugs append
the normalized filename stem to the normalized title; other sections use the
normalized title alone; an empty (normalized) title falls back to
`<section>-<originalName-stem>`. -/
def slugFor (sect title originalName : String) : String :=
  let t := slugNormalize title
  if t = "" then
    slugNormalize sect ++ "-" ++ slugNormalize (pathStemOf originalName)
  else if sect = "paintings" then
    t ++ "-" ++ slugNormalize (pathStemOf originalName)
  else t

/-- A concrete stored item used to instantiate the theorems below. -/
def demoOldItem : GalleryItem :=
  { sect := "paintings", filePath := "uploads/old.jpg", filename := "old.jpg"
    originalName := "old.jpg", title := "Old Title", description := "d"
    materials := "oil", paintingSize := "20x30", uploadDate := 5 }

/-- A one-item metadata store. -/
def demoDb : Db := [(1, demoOldItem)]

/-- A concrete replacement upload. -/
def demoNewFile : FileInfo :=
  { path := "uploads/new.jpg", filename := "new.jpg", originalname := "new.jpg" }

/-- A request body with no text fields. -/
def noFields : UploadFields :=
  { sect := none, title := none, description := none, materials := none, paintingSize := none }

/-- Claim C1: both update handlers issue `fs.unlink` on the old file before
`findByIdAndUpdate` runs, so at the failing input below the old blob is
deleted strictly before the metadata write commits — the event trace places
`oldBlobUnlinked` before `metaUpdated` — and when the metadata write fails,
the catch block also unlinks the new file, leaving the metadata record
pointing at `uploads/old.jpg` while the blob store holds neither file. -/
theorem update_unlinks_old_blob_before_metadata_write :
    (updateWithFileV1 demoDb ["uploads/old.jpg"] 1 noFields demoNewFile false).events =
      [.newBlobStored "uploads/new.jpg", .oldBlobUnlinked "uploads/old.jpg", .metaUpdated 1] ∧
    (updateWithFileV1 demoDb ["uploads/old.jpg"] 1 noFields demoNewFile true).blobs = [] ∧
    ((findById (updateWithFileV1 demoDb ["uploads/old.jpg"] 1 noFields demoNewFile true).db 1).map
      (·.filePath) = some "uploads/old.jpg") := by
  decide

/-- Deleting an id removes it from the association list. -/
theorem findById_dbDelete (db : Db) (id : Nat) : findById (dbDelete db id) id = none := by
  simp only [findById, dbDelete, Option.map_eq_none']
  rw [List.find?_eq_none]
  intro x hx
  simpa using (List.mem_filter.mp hx).2

/-- Claim C2 as stated is false on V1: when the metadata delete succeeds and
the blob delete fails, DELETE /delete/:id in V1 responds 500, not 200. -/
theorem deleteV1_partial_failure_status_500 :
    (deleteV1 demoDb ["uploads/old.jpg"] 1 true).status = 500 ∧ (500 : Nat) ≠ 200 := by
  decide

/-- Claim C2, amended: both delete handlers remove the metadata record first,
so when the blob delete fails the record is gone and the blob is orphaned;
V2 reports the partial failure as 200 with a warning message distinct from the
plain-success message, while V1 reports it as 500 with its own distinct
partial-failure message. -/
theorem delete_metadata_first_partial_failure_reporting (db : Db) (blobs : List String)
    (id : Nat) (item : GalleryItem) (h : findById db id = some item) :
    (deleteV1 db blobs id true).status = 500 ∧
    (deleteV1 db blobs id true).msg = "Item deleted from DB, but failed to delete local file." ∧
    (deleteV2 db blobs id true).status = 200 ∧
    (deleteV2 db blobs id true).msg = "Item deleted from database. However, file deletion failed." ∧
    (deleteV2 db blobs id true).msg ≠ (deleteV2 db blobs id false).msg ∧
    findById (deleteV1 db blobs id true).db id = none ∧
    findById (deleteV2 db blobs id true).db id = none ∧
    (deleteV1 db blobs id true).blobs = blobs ∧
    (deleteV2 db blobs id true).blobs = blobs := by
  simp only [deleteV1, deleteV2, h]
  refine ⟨rfl, rfl, rfl, rfl, ?_, findById_dbDelete db id, findById_dbDelete db id, rfl, rfl⟩
  rw [if_pos trivial, if_neg (by decide)]
  show "Item deleted from database. However, file deletion failed." ≠
    "File and its data deleted successfully."
  decide

/-- Witness for the amended C2 at a concrete store. -/
theorem delete_metadata_first_partial_failure_reporting_witness :
    (deleteV2 demoDb ["uploads/old.jpg"] 1 true).status = 200 ∧
    findById (deleteV2 demoDb ["uploads/old.jpg"] 1 true).db 1 = none ∧
    (deleteV1 demoDb ["uploads/old.jpg"] 1 true).status = 500 := by
  obtain ⟨h1, -, h3, -, -, -, h7, -, -⟩ :=
    delete_metadata_first_partial_failure_reporting demoDb ["uploads/old.jpg"] 1 demoOldItem
      (by decide)
  exact ⟨h3, h7, h1⟩

/-- Claim C3 as stated is false on the MongoDB variants: an upload with
section `"drawings"` stores the supplied materials verbatim. -/
theorem mongo_upload_stores_materials_for_non_paintings :
    (mkGalleryItem
        { sect := some "drawings", title := none, description := none
          materials := some "oil on canvas", paintingSize := some "20x30" }
        demoNewFile 7).materials = "oil on canvas" ∧
    (mkGalleryItem
        { sect := some "drawings", title := none, description := none
          materials := some "oil on canvas", paintingSize := some "20x30" }
        demoNewFile 7).paintingSize = "20x30" ∧
    ("oil on canvas" : String) ≠ "" ∧
    (mkGalleryItem
        { sect := some "drawings", title := none, description := none
          materials := some "oil on canvas", paintingSize := some "20x30" }
        demoNewFile 7).sect = "drawings" := by
  decide

/-- Claim C3, amended: only the Cloudinary variant discards
materials/dimensions for non-paintings sections (they are omitted from the
stored context); the MongoDB variants persist the trimmed supplied values
regardless of section. -/
theorem materials_discard_behavior (body : UploadFields) (file : FileInfo) (now : Nat)
    (name : String) (h : orDefault body.sect "others" ≠ "paintings") :
    (contextDataFor body name).materials = none ∧
    (contextDataFor body name).paintingSize = none ∧
    (contextDataFor body name).sect ≠ "paintings" ∧
    (mkGalleryItem body file now).materials = trimOrEmpty body.materials ∧
    (mkGalleryItem body file now).paintingSize = trimOrEmpty body.paintingSize := by
  refine ⟨?_, ?_, ?_, rfl, rfl⟩ <;> simp [contextDataFor, h]

/-- Witness for the amended C3 at a concrete non-paintings upload. -/
theorem materials_discard_behavior_witness :
    (contextDataFor
        { sect := some "drawings", title := some "t", description := none
          materials := some "oil", paintingSize := some "20x30" } "o.jpg").materials = none := by
  exact (materials_discard_behavior
    { sect := some "drawings", title := some "t", description := none
      materials := some "oil", paintingSize := some "20x30" }
    demoNewFile 7 "o.jpg" (by decide)).1

/-- Trimming the empty string yields the empty string. -/
theorem jsTrim_empty : jsTrim "" = "" := rfl

/-- Claim C4 as stated is false on V1: a field supplied as the empty string is
falsy, becomes `undefined` in `updateData` and is deleted, so it does NOT
overwrite — the stored title keeps its prior value instead of becoming "". -/
theorem updateV1_empty_string_treated_as_absent :
    (applyUpdate (updateDataV1
        { sect := none, title := some "", description := none
          materials := none, paintingSize := none }) demoOldItem).title = "Old Title" ∧
    ("Old Title" : String) ≠ "" := by
  decide

/-- Claim C4, amended: in both update variants every omitted field retains its
prior value and the file fields are untouched by a text-only update; a field
supplied as the empty string overwrites in V2, but in V1 it is treated as
absent and the prior value is retained. -/
theorem update_frame_behavior (body : UploadFields) (it : GalleryItem) :
    (body.title = none →
      (applyUpdate (updateDataV1 body) it).title = it.title ∧
      (applyUpdate (updateDataV2 body) it).title = it.title) ∧
    (body.description = none →
      (applyUpdate (updateDataV1 body) it).description = it.description ∧
      (applyUpdate (updateDataV2 body) it).description = it.description) ∧
    (body.materials = none →
      (applyUpdate (updateDataV1 body) it).materials = it.materials ∧
      (applyUpdate (updateDataV2 body) it).materials = it.materials) ∧
    (body.paintingSize = none →
      (applyUpdate (updateDataV1 body) it).paintingSize = it.paintingSize ∧
      (applyUpdate (updateDataV2 body) it).paintingSize = it.paintingSize) ∧
    (body.sect = none →
      (applyUpdate (updateDataV1 body) it).sect = it.sect ∧
      (applyUpdate (updateDataV2 body) it).sect = it.sect) ∧
    (body.title = some "" →
      (applyUpdate (updateDataV2 body) it).title = "" ∧
      (applyUpdate (updateDataV1 body) it).title = it.title) ∧
    (applyUpdate (updateDataV1 body) it).filePath = it.filePath ∧
    (applyUpdate (updateDataV2 body) it).filePath = it.filePath ∧
    (applyUpdate (updateDataV1 body) it).filename = it.filename ∧
    (applyUpdate (updateDataV2 body) it).filename = it.filename := by
  refine ⟨?_, ?_, ?_, ?_, ?_, ?_, rfl, rfl, rfl, rfl⟩ <;> intro h <;>
    simp [applyUpdate, updateDataV1, updateDataV2, trimmedIfTruthy, trimmedIfPresent,
      presentIfTruthy, jsTrim_empty, h]

/-- Witness for the amended C4 at a concrete update request. -/
theorem update_frame_behavior_witness :
    (applyUpdate (updateDataV2
        { sect := none, title := some "", description := none
          materials := none, paintingSize := none }) demoOldItem).title = "" ∧
    (applyUpdate (updateDataV1
        { sect := none, title := some "", description := none
          materials := none, paintingSize := none }) demoOldItem).description = "d" := by
  obtain ⟨-, hd, -, -, -, ht, -⟩ := update_frame_behavior
    { sect := none, title := some "", description := none
      materials := none, paintingSize := none } demoOldItem
  exact ⟨(ht rfl).1, (hd rfl).1⟩

/-- Claim C5 as stated is false for the MIME precondition: a non-image upload
is rejected by the fileFilter with a plain `Error`, which the global error
handler maps to 500, not 400 (no blob and no metadata record are created). -/
theorem non_image_upload_rejected_with_500 :
    uploadMongo "application/pdf" 5 noFields demoNewFile 0 false false =
      { status := 500, blobExists := false, metaSaved := none } ∧
    (500 : Nat) ≠ 400 := by
  decide

/-- Claim C5, amended: validation rejects before any store is touched — no
blob remains and no metadata record is created — with status 400 for an
oversize payload (`MulterError LIMIT_FILE_SIZE`), but status 500 for a
content type that does not begin with `image/` (the fileFilter's plain
`Error` falls through the global handler's default branch). -/
theorem upload_validation_rejects_before_stores (mimetype : String) (size : Nat)
    (body : UploadFields) (file : FileInfo) (now : Nat) (dbFails unlinkFails : Bool) :
    (startsWithStr "image/" mimetype = false →
      uploadMongo mimetype size body file now dbFails unlinkFails =
        { status := 500, blobExists := false, metaSaved := none }) ∧
    (startsWithStr "image/" mimetype = true → size > maxFileSize →
      uploadMongo mimetype size body file now dbFails unlinkFails =
        { status := 400, blobExists := false, metaSaved := none }) := by
  constructor
  · intro h
    simp [uploadMongo, multerCheck, globalErrorStatus, h]
  · intro h hsz
    simp [uploadMongo, multerCheck, globalErrorStatus, h, hsz]

/-- Witness for the amended C5 at concrete rejected uploads. -/
theorem upload_validation_rejects_before_stores_witness :
    uploadMongo "text/html" 5 noFields demoNewFile 0 false false =
      { status := 500, blobExists := false, metaSaved := none } ∧
    uploadMongo "image/png" (maxFileSize + 1) noFields demoNewFile 0 false false =
      { status := 400, blobExists := false, metaSaved := none } := by
  obtain ⟨h1, -⟩ :=
    upload_validation_rejects_before_stores "text/html" 5 noFields demoNewFile 0 false false
  obtain ⟨-, h2⟩ := upload_validation_rejects_before_stores "image/png" (maxFileSize + 1)
    noFields demoNewFile 0 false false
  exact ⟨h1 (by decide), h2 (by decide) (by decide)⟩

/-- Claim C6: when multer accepts the upload but the metadata save fails, the
handler responds 500 with the store error as the primary outcome whether or
not the compensating unlink succeeds (a compensation failure is only logged),
no metadata record is created, and when the compensating unlink succeeds the
already-written blob is removed. -/
theorem upload_db_failure_compensation (mimetype : String) (size : Nat)
    (body : UploadFields) (file : FileInfo) (now : Nat) (unlinkFails : Bool)
    (h : multerCheck mimetype size = none) :
    (uploadMongo mimetype size body file now true unlinkFails).status = 500 ∧
    (uploadMongo mimetype size body file now true unlinkFails).metaSaved = none ∧
    (uploadMongo mimetype size body file now true false).blobExists = false ∧
    (uploadMongo mimetype size body file now true true).blobExists = true := by
  simp [uploadMongo, h]

/-- Witness for C6 at a concrete accepted-then-failed ingestion. -/
theorem upload_db_failure_compensation_witness :
    (uploadMongo "image/png" 100 noFields demoNewFile 0 true false).status = 500 ∧
    (uploadMongo "image/png" 100 noFields demoNewFile 0 true false).blobExists = false := by
  obtain ⟨h1, -, h3, -⟩ :=
    upload_db_failure_compensation "image/png" 100 noFields demoNewFile 0 false (by decide)
  exact ⟨h1, h3⟩

/-- Claim C7 as stated is false on the Cloudinary variant: with an empty
store, the section `"paintings"` has zero items yet appears in the stats
mapping with count 0 instead of being omitted. -/
theorem cloudinary_stats_reports_zero_sections :
    ("paintings", 0) ∈ statsCloudinary [] ∧
    (List.filter (fun a => a.folder == "paintings") ([] : List CloudAsset)).length = 0 := by
  decide

/-- Claim C7, amended: the MongoDB aggregate variant is sparse — every entry
of its mapping has a positive count, so a section with zero items never
appears — while the Cloudinary variant always reports every one of its six
hard-coded sections, zero counts included. -/
theorem stats_sparsity_behavior (db : Db) (store : List CloudAsset) :
    (∀ p ∈ statsMongo db, 0 < p.2) ∧
    (∀ s ∈ knownSections,
      (s, (List.filter (fun a => a.folder == s) store).length) ∈ statsCloudinary store) := by
  constructor
  · intro p hp
    obtain ⟨s, hs, rfl⟩ := List.mem_map.mp hp
    obtain ⟨e, he, hse⟩ := List.mem_map.mp (List.mem_dedup.mp hs)
    exact List.length_pos_of_mem (List.mem_filter.mpr ⟨he, by simp [hse]⟩)
  · intro s hs
    exact List.mem_map.mpr ⟨s, hs, rfl⟩

/-- Witness for the amended C7 at concrete stores. -/
theorem stats_sparsity_behavior_witness :
    0 < (("paintings", 1) : String × Nat).2 ∧ ("others", 0) ∈ statsCloudinary [] := by
  obtain ⟨h1, h2⟩ := stats_sparsity_behavior demoDb []
  refine ⟨h1 ("paintings", 1) (by decide), ?_⟩
  have h3 := h2 "others" (by decide)
  simpa using h3

/-- Claim C8: `GET /files/:section` returns exactly the stored items of the
requested section, sorted by upload date descending (newest first), and the
empty list — not an error — when the section has no items; the filesystem
variant likewise returns the empty list when the section directory does not
exist and sorts by creation time descending. -/
theorem listBySection_ordered_and_complete (db : Db) (s : String)
    (dirs : List (String × List FsEntry)) :
    (∀ it : GalleryItem, it ∈ listBySection db s ↔ it ∈ List.map (·.2) db ∧ it.sect = s) ∧
    List.Sorted rDateDesc (listBySection db s) ∧
    ((∀ e ∈ db, (e : Nat × GalleryItem).2.sect ≠ s) → listBySection db s = []) ∧
    (List.find? (fun d => d.1 == s) dirs = none → fsListBySection dirs s = []) ∧
    List.Sorted rTimeDesc (fsListBySection dirs s) := by
  refine ⟨?_, ?_, ?_, ?_, ?_⟩
  · intro it
    rw [listBySection, List.mem_insertionSort, List.mem_filter]
    simp
  · exact List.sorted_insertionSort rDateDesc _
  · intro h
    have hf : List.filter (fun it => it.sect == s) (List.map (·.2) db) = [] := by
      rw [List.filter_eq_nil_iff]
      intro a ha
      obtain ⟨e, he, rfl⟩ := List.mem_map.mp ha
      simpa using h e he
    simp only [listBySection, hf]
    rfl
  · intro h
    simp only [fsListBySection, h]
  · cases hf : List.find? (fun d => d.1 == s) dirs with
    | none => simp only [fsListBySection, hf]; exact List.sorted_nil
    | some d =>
      simp only [fsListBySection, hf]
      exact List.sorted_insertionSort rTimeDesc _

/-- A two-item store with distinct upload dates. -/
def demoDb2 : Db := [(1, demoOldItem), (2, { demoOldItem with uploadDate := 9, title := "New" })]

/-- Witness for C8 at a concrete store and a missing directory. -/
theorem listBySection_ordered_and_complete_witness :
    List.Sorted rDateDesc (listBySection demoDb2 "paintings") ∧
    fsListBySection [] "paintings" = [] := by
  obtain ⟨-, h2, -, h4, -⟩ := listBySection_ordered_and_complete demoDb2 "paintings" []
  exact ⟨h2, h4 rfl⟩

/-- Claim C9 (the Slug Deriver exists only in the spec, so `slugFor` is
modelled from §4.3): the function is pure and deterministic — two calls on
identical inputs agree — and when the normalized title is non-empty, the
paintings slug is the normalized title, a hyphen, and the normalized filename
stem, while every other section's slug is the normalized title alone. -/
theorem slugFor_deterministic_and_shape (sect title originalName : String)
    (h : slugNormalize title ≠ "") :
    slugFor sect title originalName = slugFor sect title originalName ∧
    (sect = "paintings" →
      slugFor sect title originalName =
        slugNormalize title ++ "-" ++ slugNormalize (pathStemOf originalName)) ∧
    (sect ≠ "paintings" → slugFor sect title originalName = slugNormalize title) := by
  refine ⟨rfl, ?_, ?_⟩ <;> intro hs <;> simp [slugFor, h, hs]

/-- Witness for C9 at concrete inputs of both shapes. -/
theorem slugFor_deterministic_and_shape_witness :
    slugFor "paintings" "Sunset Glow" "IMG 01.jpg" = "sunset-glow-img-01" ∧
    slugFor "drawings" "Sunset Glow" "IMG 01.jpg" = "sunset-glow" := by
  have h1 := slugFor_deterministic_and_shape "paintings" "Sunset Glow" "IMG 01.jpg" (by decide)
  have h2 := slugFor_deterministic_and_shape "drawings" "Sunset Glow" "IMG 01.jpg" (by decide)
  refine ⟨?_, ?_⟩
  · rw [h1.2.1 rfl]; decide
  · rw [h2.2.2 (by decide)]; decide

/-- Claim C10: with non-empty `filename` and `section`, the filesystem delete
route responds 200 exactly when the image file or its sidecar JSON exists
(in particular when only the sidecar remains), and 404 exactly when neither
exists. -/
theorem fs_delete_success_iff_some_file_exists (files : List String) (fn sc : String)
    (hfn : fn ≠ "") (hsc : sc ≠ "") :
    ((deleteFsHandler files (some fn) (some sc)).status = 200 ↔
      (fsFilePath sc fn ∈ files ∨ getMetadataPath sc fn ∈ files)) ∧
    ((deleteFsHandler files (some fn) (some sc)).status = 404 ↔
      (fsFilePath sc fn ∉ files ∧ getMetadataPath sc fn ∉ files)) := by
  have hv : ¬(fn = "" ∨ sc = "") := by simp [hfn, hsc]
  by_cases h1 : fsFilePath sc fn ∈ files
  · by_cases h2 : getMetadataPath sc fn ∈ files.erase (fsFilePath sc fn) <;>
      simp [deleteFsHandler, hv, h1, h2]
  · by_cases h2 : getMetadataPath sc fn ∈ files <;>
      simp [deleteFsHandler, hv, h1, h2]

/-- Witness for C10: the image is already gone, only the sidecar JSON remains,
and the delete still reports full success. -/
theorem fs_delete_success_iff_some_file_exists_witness :
    (deleteFsHandler ["uploads/art/x.json"] (some "x.jpg") (some "art")).status = 200 :=
  (fs_delete_success_iff_some_file_exists ["uploads/art/x.json"] "x.jpg" "art"
    (by decide) (by decide)).1.mpr (Or.inr (by decide))
